import Mathlib

/-!
Verification of the QuizApp quiz engine: a shallow embedding of the
question sampler (`views.start_quiz`, `views.get_questions_for_source`),
the quiz-session state machine (`views.take_quiz`), and the scoring
engine (`views.quiz_results`, `models.Quiz.get_score_breakdown`),
together with theorems settling the specification claims.
-/

namespace QuizApp

/-! ## Per-question status (models.QuizQuestionStatus.STATUS_CHOICES) -/

inductive QStatus
  | unattempted
  | attempted
  | marked_for_review
  | answered_and_marked
deriving DecidableEq, Repr

instance : Fintype QStatus :=
  ⟨⟨{QStatus.unattempted, QStatus.attempted, QStatus.marked_for_review,
     QStatus.answered_and_marked}, by decide⟩, by intro x; cases x <;> decide⟩

/-- The three status-mutating actions of `take_quiz` (views.py):
`mark` = action `mark_for_review`, `clear` = action `clear_answer`,
`submit` = action `next` with a non-empty answer. -/
inductive ActionKind
  | submit
  | mark
  | clear
deriving DecidableEq, Repr

instance : Fintype ActionKind :=
  ⟨⟨{ActionKind.submit, ActionKind.mark, ActionKind.clear}, by decide⟩,
   by intro x; cases x <;> decide⟩

/-- Message levels used by the view (`django.contrib.messages`). -/
inductive MsgKind
  | info
  | success
  | error
deriving DecidableEq, Repr

/-- A per-question status record as stored: `none` means no
`QuizQuestionStatus` row exists yet for the (quiz, question) pair. -/
def statusOfRecord : Option QStatus → QStatus
  | none => QStatus.unattempted
  | some s => s

/-- Status written by the `mark_for_review` branch (views.py lines 304-317):
`get_or_create` with default `marked_for_review`; if the row existed,
`attempted` becomes `answered_and_marked`, anything else becomes
`marked_for_review`. -/
def markStatusUpdate : Option QStatus → QStatus
  | none => QStatus.marked_for_review
  | some QStatus.attempted => QStatus.answered_and_marked
  | some _ => QStatus.marked_for_review

/-- Status written by the `clear_answer` branch (views.py lines 328-343):
if no row exists one is created with `unattempted`; an existing
`answered_and_marked` becomes `marked_for_review`, an existing
`attempted` becomes `unattempted`, and any other row is left as is. -/
def clearStatusUpdate : Option QStatus → QStatus
  | none => QStatus.unattempted
  | some QStatus.answered_and_marked => QStatus.marked_for_review
  | some QStatus.attempted => QStatus.unattempted
  | some s => s

/-- Status written by the answer-submission branch (views.py lines 363-374):
`get_or_create` with default `attempted`; if the row existed,
`marked_for_review` becomes `answered_and_marked`, anything else becomes
`attempted`. -/
def submitStatusUpdate : Option QStatus → QStatus
  | none => QStatus.attempted
  | some QStatus.marked_for_review => QStatus.answered_and_marked
  | some _ => QStatus.attempted

/-- The status written by each action, dispatching to the branch above. -/
def statusUpdate : ActionKind → Option QStatus → QStatus
  | ActionKind.mark, o => markStatusUpdate o
  | ActionKind.clear, o => clearStatusUpdate o
  | ActionKind.submit, o => submitStatusUpdate o

/-- Message kinds emitted by each action branch of `take_quiz`: mark always
emits `messages.info`; clear emits `messages.success` when an answer row
existed, otherwise `messages.info`; a successful submit emits no message.
The Boolean argument is whether an answer row existed. -/
def actionMsgKinds : ActionKind → Bool → List MsgKind
  | ActionKind.mark, _ => [MsgKind.info]
  | ActionKind.clear, true => [MsgKind.success]
  | ActionKind.clear, false => [MsgKind.info]
  | ActionKind.submit, _ => []

/-- Modelled from the spec: the section 4.2 status-transition table,
transcribed literally; `none` means the (status, action) pair is not
listed in the table. This is the spec-side definition used to compare
the code's transition functions against the spec's table. -/
def specTable42 : QStatus → ActionKind → Option QStatus
  | QStatus.unattempted, ActionKind.submit => some QStatus.attempted
  | QStatus.attempted, ActionKind.submit => some QStatus.attempted
  | QStatus.attempted, ActionKind.mark => some QStatus.answered_and_marked
  | QStatus.unattempted, ActionKind.mark => some QStatus.marked_for_review
  | QStatus.marked_for_review, ActionKind.submit => some QStatus.answered_and_marked
  | QStatus.answered_and_marked, ActionKind.clear => some QStatus.marked_for_review
  | QStatus.attempted, ActionKind.clear => some QStatus.unattempted
  | _, _ => none

/-! ## Association-list operations standing for the per-(quiz, question)
rows of `QuizAnswer` and `QuizQuestionStatus` (both have
`unique_together = [quiz, question]`, so each is a map keyed by
question id). -/

/-- Row lookup by question id (`objects.get(quiz=..., question=...)`). -/
def alookup {β : Type} (k : Nat) : List (Nat × β) → Option β
  | [] => none
  | (k2, v) :: rest => if k2 = k then some v else alookup k rest

/-- Row write: overwrite the existing row for `k`, or insert one
(`get_or_create` followed by an unconditional `save`). -/
def aupdate {β : Type} (k : Nat) (v : β) : List (Nat × β) → List (Nat × β)
  | [] => [(k, v)]
  | (k2, v2) :: rest => if k2 = k then (k, v) :: rest else (k2, v2) :: aupdate k v rest

/-- Row deletion (`quiz_answer.delete()`). -/
def aremove {β : Type} (k : Nat) : List (Nat × β) → List (Nat × β)
  | [] => []
  | (k2, v2) :: rest => if k2 = k then rest else (k2, v2) :: aremove k rest

/-! ## Quiz entity and session state -/

/-- The `Quiz` row fields relevant to the engine (models.py `Quiz`).
Django floats are modelled as exact rationals; timestamps as naturals. -/
structure QuizRec where
  total_questions : Nat
  duration_minutes : Nat
  score : Option Rat
  correct_answers : Nat
  end_time : Option Nat
  is_completed : Bool
deriving DecidableEq, Repr

/-- The full per-quiz state seen by `take_quiz` and `quiz_results`:
the `Quiz` row, the session-held question-id sequence and cursor
(`request.session[quiz_N_questions]`, `[quiz_N_current]`), the
`QuizAnswer` rows (question id ↦ (user_answer, is_correct)) and the
`QuizQuestionStatus` rows (question id ↦ status). -/
structure SessionState where
  quiz : QuizRec
  questionIds : List Nat
  currentIndex : Nat
  answers : List (Nat × String × Bool)
  statuses : List (Nat × QStatus)
deriving DecidableEq, Repr

/-- The request payloads handled by the POST branch of `take_quiz`:
`next` carries the (already stripped) answer string, `jumpTo` the posted
`question_index` (an arbitrary integer). -/
inductive ActionReq
  | markForReview
  | clearAnswer
  | next (ans : String)
  | jumpTo (idx : Int)
deriving DecidableEq, Repr

/-- How a `take_quiz` request ends: a 404, a redirect to the results or
take-quiz page, or a render of the question page with the listed
messages. -/
inductive Outcome
  | notFound
  | redirectResults
  | redirectTake
  | rendered (msgs : List MsgKind)
deriving DecidableEq, Repr

/-- The question currently at the session cursor
(`question_ids[current_index]`). -/
def currentQuestionId (st : SessionState) : Nat :=
  st.questionIds.getD st.currentIndex 0

/-- The POST handler of `views.take_quiz` (views.py lines 285-436).
`qstore` maps question id to the question's `correct_answer`, standing
for the `Question` table. The guards mirror the source: the
`get_object_or_404(..., is_completed=False)` lookup, the
redirect-to-results when the session holds no ids or the cursor is past
the end, and the `get_object_or_404(Question, ...)` lookup; then the
four action branches. -/
def takeQuiz (qstore : List (Nat × String)) (st : SessionState) (req : ActionReq) :
    SessionState × Outcome :=
  if st.quiz.is_completed then (st, Outcome.notFound)
  else if st.questionIds = [] ∨ st.questionIds.length ≤ st.currentIndex then
    (st, Outcome.redirectResults)
  else
    match alookup (currentQuestionId st) qstore with
    | none => (st, Outcome.notFound)
    | some correct =>
      let q := currentQuestionId st
      match req with
      | ActionReq.markForReview =>
        ({ st with statuses := aupdate q (markStatusUpdate (alookup q st.statuses)) st.statuses },
         Outcome.rendered (actionMsgKinds ActionKind.mark ((alookup q st.answers).isSome)))
      | ActionReq.clearAnswer =>
        ({ st with
            answers := aremove q st.answers,
            statuses := aupdate q (clearStatusUpdate (alookup q st.statuses)) st.statuses },
         Outcome.rendered (actionMsgKinds ActionKind.clear ((alookup q st.answers).isSome)))
      | ActionReq.next ans =>
        if ans = "" then (st, Outcome.rendered [MsgKind.error])
        else
          let isc := ans.toLower == correct.toLower
          let st2 : SessionState :=
            { st with
              answers := aupdate q (ans, isc) st.answers,
              statuses := aupdate q (submitStatusUpdate (alookup q st.statuses)) st.statuses,
              currentIndex := st.currentIndex + 1 }
          if st.questionIds.length ≤ st.currentIndex + 1 then (st2, Outcome.redirectResults)
          else (st2, Outcome.redirectTake)
      | ActionReq.jumpTo idx =>
        if 0 ≤ idx ∧ idx < (st.questionIds.length : Int) then
          ({ st with currentIndex := idx.toNat }, Outcome.redirectTake)
        else (st, Outcome.rendered [])

/-! ## Scoring engine -/

/-- The dictionary returned by `models.Quiz.get_score_breakdown`
(models.py lines 63-83). -/
structure ScoreBreakdown where
  correct_count : Nat
  wrong_count : Nat
  attempted_count : Nat
  unattempted_count : Int
  raw_score : Rat
  max_possible : Rat
  percentage : Rat
deriving DecidableEq, Repr

/-- `models.Quiz.get_score_breakdown`, computed from the quiz's
`QuizAnswer` rows and its `total_questions` field. Python's int
subtraction is modelled on `Int` (it can go negative), floats as exact
rationals. -/
def get_score_breakdown (answers : List (Nat × String × Bool))
    (total_questions : Nat) : ScoreBreakdown :=
  let correct_count := (answers.filter (fun a => a.2.2)).length
  let wrong_count := (answers.filter (fun a => !a.2.2)).length
  let attempted_count := answers.length
  let unattempted_count : Int := (total_questions : Int) - (attempted_count : Int)
  let raw_score : Rat :=
    (correct_count : Rat) * 1 + (wrong_count : Rat) * (-(1/4)) + (unattempted_count : Rat) * 0
  let max_possible : Rat := (total_questions : Rat) * 1
  { correct_count := correct_count
    wrong_count := wrong_count
    attempted_count := attempted_count
    unattempted_count := unattempted_count
    raw_score := raw_score
    max_possible := max_possible
    percentage := if 0 < max_possible then max 0 (raw_score / max_possible * 100) else 0 }

/-- The display context built by `views.quiz_results` lines 476-495:
counts and raw/max score recomputed from the `QuizAnswer` rows, plus the
`Quiz` row itself (whose stored `score` the page shows). -/
structure ResultsView where
  correct_count : Nat
  wrong_count : Nat
  attempted_count : Nat
  unattempted_count : Int
  raw_score : Rat
  max_possible_score : Rat
  quiz : QuizRec
deriving DecidableEq, Repr

/-- The recomputed display stats of `views.quiz_results` (lines 476-484). -/
def computeResultsView (st : SessionState) : ResultsView :=
  let answers := st.answers
  let correct_count := (answers.filter (fun a => a.2.2)).length
  let wrong_count := (answers.filter (fun a => !a.2.2)).length
  let attempted_count := answers.length
  let unattempted_count : Int := (st.quiz.total_questions : Int) - (attempted_count : Int)
  { correct_count := correct_count
    wrong_count := wrong_count
    attempted_count := attempted_count
    unattempted_count := unattempted_count
    raw_score :=
      (correct_count : Rat) * 1 + (wrong_count : Rat) * (-(1/4)) + (unattempted_count : Rat) * 0
    max_possible_score := (st.quiz.total_questions : Rat) * 1
    quiz := st.quiz }

/-- The sealing branch of `views.quiz_results` (lines 444-473): compute
correct/wrong/attempted/unattempted, the raw score, the clamped
percentage, write `end_time`/`score`/`correct_answers`/`is_completed`
onto the quiz, and pop the two session keys. -/
def sealQuiz (st : SessionState) (now : Nat) : SessionState :=
  let answers := st.answers
  let correct_answers := (answers.filter (fun a => a.2.2)).length
  let wrong_answers := (answers.filter (fun a => !a.2.2)).length
  let total_attempted := answers.length
  let total_questions := st.quiz.total_questions
  let unattempted_questions : Int := (total_questions : Int) - (total_attempted : Int)
  let raw_score : Rat :=
    (correct_answers : Rat) * 1 + (wrong_answers : Rat) * (-(1/4)) + (unattempted_questions : Rat) * 0
  let max_possible_score : Rat := (total_questions : Rat) * 1
  let percentage_score : Rat :=
    if 0 < max_possible_score then max 0 (raw_score / max_possible_score * 100) else 0
  { st with
    quiz := { st.quiz with
              end_time := some now
              score := some percentage_score
              correct_answers := correct_answers
              is_completed := true }
    questionIds := []
    currentIndex := 0 }

/-- `views.quiz_results` (lines 439-496): seal the quiz on first view,
then (in every case) rebuild the display stats from the answer rows. -/
def quiz_results (st : SessionState) (now : Nat) : SessionState × ResultsView :=
  if st.quiz.is_completed then (st, computeResultsView st)
  else
    let st2 := sealQuiz st now
    (st2, computeResultsView st2)

/-! ## Question sampler and quiz creation -/

/-- A `Question` row as the sampler sees it: primary key, owning chapter,
that chapter's book, and the difficulty tier string. -/
structure ContentQ where
  id : Nat
  chapterId : Nat
  bookId : Nat
  difficulty : String
deriving DecidableEq, Repr

/-- The polymorphic quiz scope: `views.start_quiz` passes a `Chapter`,
`views.start_book_quiz` a `Book`; `get_questions_for_source` dispatches
on `isinstance`. -/
inductive QuizSource
  | chapter (cid : Nat)
  | book (bid : Nat)
deriving DecidableEq, Repr

/-- The scope filter of `get_questions_for_source`: a chapter scope keeps
the chapter's own questions (`source.questions.all()`), a book scope the
questions of all its chapters (`filter(chapter__book=source)`). -/
def sourceMatch (src : QuizSource) (q : ContentQ) : Bool :=
  match src with
  | QuizSource.chapter cid => q.chapterId == cid
  | QuizSource.book bid => q.bookId == bid

/-- `views.get_questions_for_source` (views.py lines 16-29): restrict to
the scope, then filter by difficulty unless it is the string `all`. -/
def get_questions_for_source (allQ : List ContentQ) (src : QuizSource)
    (difficulty : String) : List ContentQ :=
  let base := allQ.filter (sourceMatch src)
  if difficulty ≠ "all" then base.filter (fun q => q.difficulty == difficulty) else base

/-- `random.sample(pool, k)`: draw `k` elements without replacement.
The randomness is an injected stream `rnd` of naturals; each step picks
the element at position `rnd.head % pool.length` and removes it from the
pool before recursing. -/
def drawSample {α : Type} [DecidableEq α] : List Nat → List α → Nat → List α
  | _, _, 0 => []
  | _, [], _ + 1 => []
  | rnd, x :: xs, k + 1 =>
    let chosen := (x :: xs).getD (rnd.headD 0 % (x :: xs).length) x
    chosen :: drawSample rnd.tail ((x :: xs).erase chosen) k

/-- The quiz-creation POST branch of `views.start_quiz` /
`views.start_book_quiz` (views.py lines 136-168 and 220-252; both are
verbatim copies apart from the scope): resolve the eligible set; if it
has fewer than `num_questions` questions, report the available count and
create nothing; otherwise create the `Quiz` row and store the sampled
question ids in the session. Returns the (possibly extended) quiz table
and either the session id list or the available count carried by the
`Only N questions available` error. -/
def start_quiz (allQ : List ContentQ) (quizzes : List QuizRec) (src : QuizSource)
    (difficulty : String) (num_questions : Nat) (duration_minutes : Nat)
    (rnd : List Nat) : List QuizRec × Except Nat (List Nat) :=
  let questions_qs := get_questions_for_source allQ src difficulty
  if questions_qs.length < num_questions then
    (quizzes, Except.error questions_qs.length)
  else
    let newQuiz : QuizRec :=
      { total_questions := num_questions
        duration_minutes := duration_minutes
        score := none
        correct_answers := 0
        end_time := none
        is_completed := false }
    let sampled := drawSample rnd questions_qs num_questions
    (quizzes ++ [newQuiz], Except.ok (sampled.map ContentQ.id))

/-! ## Concrete sample data used to instantiate the theorems -/

/-- A two-question store: question 10 has correct answer `C`, question 11
has correct answer `B`. -/
def demoQuestions : List (Nat × String) := [(10, "C"), (11, "B")]

/-- A fresh two-question session at the first question. -/
def demoState : SessionState :=
  { quiz := { total_questions := 2, duration_minutes := 30, score := none,
              correct_answers := 0, end_time := none, is_completed := false }
    questionIds := [10, 11]
    currentIndex := 0
    answers := []
    statuses := [] }

/-- The same session with its quiz already sealed. -/
def demoSealedState : SessionState :=
  { demoState with quiz := { demoState.quiz with is_completed := true } }

/-- The same session with question 10 marked for review. -/
def demoMarkedState : SessionState :=
  { demoState with statuses := [(10, QStatus.marked_for_review)] }

/-- A three-question content store: chapter 1 holds an easy and a medium
question, chapter 2 a hard one; all in book 1. -/
def demoContent : List ContentQ :=
  [{ id := 1, chapterId := 1, bookId := 1, difficulty := "easy" },
   { id := 2, chapterId := 1, bookId := 1, difficulty := "medium" },
   { id := 3, chapterId := 2, bookId := 1, difficulty := "hard" }]

/-! ## Helper lemmas -/

theorem alookup_aupdate {β : Type} (k : Nat) (v : β) :
    ∀ l : List (Nat × β), alookup k (aupdate k v l) = some v
  | [] => by simp [alookup, aupdate]
  | (k2, v2) :: rest => by
    by_cases h : k2 = k
    · simp [aupdate, h, alookup]
    · simp [aupdate, h, alookup, alookup_aupdate k v rest]

theorem cons_getD_mem {α : Type} (x : α) (xs : List α) (n : Nat) :
    (x :: xs).getD n x ∈ x :: xs := by
  rcases Nat.lt_or_ge n (x :: xs).length with h | h
  · rw [List.getD_eq_getElem?_getD, List.getElem?_eq_getElem h]
    exact List.getElem_mem h
  · rw [List.getD_eq_getElem?_getD, List.getElem?_eq_none h]
    exact List.mem_cons_self x xs

theorem subperm_nodup {α : Type} {l1 l2 : List α} (h : List.Subperm l1 l2) (h2 : l2.Nodup) :
    l1.Nodup := by
  obtain ⟨l, hp, hs⟩ := h
  exact hp.nodup_iff.mp (hs.nodup h2)

theorem subperm_map {α β : Type} (f : α → β) {l1 l2 : List α} (h : List.Subperm l1 l2) :
    List.Subperm (l1.map f) (l2.map f) := by
  obtain ⟨l, hp, hs⟩ := h
  exact ⟨l.map f, hp.map f, hs.map f⟩

theorem drawSample_subperm {α : Type} [DecidableEq α] (k : Nat) :
    ∀ (rnd : List Nat) (pool : List α), List.Subperm (drawSample rnd pool k) pool := by
  induction k with
  | zero => intro rnd pool; simp [drawSample]
  | succ k ih =>
    intro rnd pool
    cases pool with
    | nil => simp [drawSample]
    | cons x xs =>
      simp only [drawSample]
      exact List.Subperm.trans
        ((List.subperm_cons _).mpr (ih rnd.tail
          ((x :: xs).erase ((x :: xs).getD (rnd.headD 0 % (x :: xs).length) x))))
        (List.perm_cons_erase
          (cons_getD_mem x xs (rnd.headD 0 % (x :: xs).length))).symm.subperm

theorem drawSample_length {α : Type} [DecidableEq α] (k : Nat) :
    ∀ (rnd : List Nat) (pool : List α), k ≤ pool.length →
      (drawSample rnd pool k).length = k := by
  induction k with
  | zero => intro rnd pool _; simp [drawSample]
  | succ k ih =>
    intro rnd pool h
    cases pool with
    | nil => exact absurd h (by simp)
    | cons x xs =>
      simp only [drawSample, List.length_cons]
      rw [ih _ _ ?_]
      rw [List.length_erase_of_mem (cons_getD_mem x xs _)]
      simp only [List.length_cons] at h ⊢
      omega

/-! ## Claim C2: the section 4.2 status-transition table -/

/-- C2, as stated, is false. The claim asserts that every
(status, action) pair listed in the section 4.2 table transitions as the
table says (true), and that every pair NOT in the table is rejected with
an error rather than being a silent no-op. The code rejects nothing: at
the concrete input (answered_and_marked, mark_for_review) — a pair not
in the table — the `mark_for_review` branch silently rewrites the status
to `marked_for_review` and emits only an info message. -/
theorem C2_counterexample :
    ¬ ((∀ (o : Option QStatus) (a : ActionKind) (s2 : QStatus),
          specTable42 (statusOfRecord o) a = some s2 → statusUpdate a o = s2) ∧
       (∀ (o : Option QStatus) (a : ActionKind),
          specTable42 (statusOfRecord o) a = none →
            statusUpdate a o = statusOfRecord o ∧
            ∀ ae : Bool, MsgKind.error ∈ actionMsgKinds a ae)) := by
  intro h
  have h2 := h.2 (some QStatus.answered_and_marked) ActionKind.mark (by decide)
  exact absurd h2.1 (by decide)

/-- C2 amended: every (status, action) pair listed in the section 4.2
table (reading a missing status row as the implicit `unattempted`)
transitions exactly as the table says; but the pairs not in the table
are not rejected — mark_for_review on `marked_for_review` or
`answered_and_marked` writes `marked_for_review`, submit on
`answered_and_marked` writes `attempted`, clear_answer on
`marked_for_review` or `unattempted` leaves the status unchanged, and no
status action ever emits an error message (the `jump_to` out-of-range
no-op stays as documented). -/
theorem C2_amended :
    (∀ (o : Option QStatus) (a : ActionKind) (s2 : QStatus),
        specTable42 (statusOfRecord o) a = some s2 → statusUpdate a o = s2) ∧
    statusUpdate ActionKind.mark (some QStatus.marked_for_review) = QStatus.marked_for_review ∧
    statusUpdate ActionKind.mark (some QStatus.answered_and_marked) = QStatus.marked_for_review ∧
    statusUpdate ActionKind.submit (some QStatus.answered_and_marked) = QStatus.attempted ∧
    statusUpdate ActionKind.clear (some QStatus.marked_for_review) = QStatus.marked_for_review ∧
    statusUpdate ActionKind.clear (some QStatus.unattempted) = QStatus.unattempted ∧
    (∀ (a : ActionKind) (ae : Bool), MsgKind.error ∉ actionMsgKinds a ae) := by
  refine ⟨?_, by decide, by decide, by decide, by decide, by decide, by decide⟩
  intro o a s2 hso
  cases o with
  | none => cases a <;> simp_all [specTable42, statusOfRecord, statusUpdate,
      markStatusUpdate, clearStatusUpdate, submitStatusUpdate]
  | some s => cases s <;> cases a <;> simp_all [specTable42, statusOfRecord, statusUpdate,
      markStatusUpdate, clearStatusUpdate, submitStatusUpdate]

/-- Witness for C2_amended: the in-table pair (attempted, mark) really
transitions to answered_and_marked. -/
theorem C2_amended_witness :
    specTable42 (statusOfRecord (some QStatus.attempted)) ActionKind.mark
        = some QStatus.answered_and_marked ∧
    statusUpdate ActionKind.mark (some QStatus.attempted) = QStatus.answered_and_marked :=
  ⟨by decide,
   C2_amended.1 (some QStatus.attempted) ActionKind.mark QStatus.answered_and_marked (by decide)⟩

/-! ## Claim C6: mutations on a sealed quiz are rejected unchanged -/

/-- C6: every session operation (submit, mark for review, clear answer,
jump_to) against a quiz whose `is_completed` flag is true is answered
with the 404 produced by `get_object_or_404(..., is_completed=False)`,
and the state — answers, statuses, cursor, score, completion flag — is
returned untouched. -/
theorem C6_sealed_rejected (qstore : List (Nat × String)) (st : SessionState)
    (req : ActionReq) (h : st.quiz.is_completed = true) :
    takeQuiz qstore st req = (st, Outcome.notFound) := by
  simp [takeQuiz, h]

/-- Witness for C6: a concrete sealed session rejects a mark-for-review
request unchanged. -/
theorem C6_sealed_rejected_witness :
    demoSealedState.quiz.is_completed = true ∧
    takeQuiz demoQuestions demoSealedState ActionReq.markForReview
      = (demoSealedState, Outcome.notFound) :=
  ⟨rfl, C6_sealed_rejected demoQuestions demoSealedState ActionReq.markForReview rfl⟩

/-! ## Claim C8: jump_to semantics -/

/-- C8: with the session at a live quiz and an in-range cursor, `jump_to`
with `0 <= index < len(question_sequence)` sets the cursor to that index;
with any out-of-range index it changes nothing and emits no message at
all (a silent no-op, not an error); and after every `jump_to` the cursor
is again inside `[0, len)`. -/
theorem C8_jump_to (qstore : List (Nat × String)) (st : SessionState) (idx : Int) (c : String)
    (h1 : st.quiz.is_completed = false)
    (h2 : st.currentIndex < st.questionIds.length)
    (h3 : alookup (currentQuestionId st) qstore = some c) :
    ((0 ≤ idx ∧ idx < (st.questionIds.length : Int)) →
        takeQuiz qstore st (ActionReq.jumpTo idx)
          = ({ st with currentIndex := idx.toNat }, Outcome.redirectTake)) ∧
    (¬ (0 ≤ idx ∧ idx < (st.questionIds.length : Int)) →
        takeQuiz qstore st (ActionReq.jumpTo idx) = (st, Outcome.rendered [])) ∧
    (takeQuiz qstore st (ActionReq.jumpTo idx)).1.currentIndex
      < (takeQuiz qstore st (ActionReq.jumpTo idx)).1.questionIds.length := by
  have hne : ¬(st.questionIds = [] ∨ st.questionIds.length ≤ st.currentIndex) := by
    rintro (he | hle)
    · rw [he] at h2
      exact absurd h2 (by simp)
    · omega
  by_cases hr : 0 ≤ idx ∧ idx < (st.questionIds.length : Int)
  · refine ⟨fun _ => ?_, fun hc => absurd hr hc, ?_⟩
    · simp [takeQuiz, h1, hne, h3, hr]
    · simp only [takeQuiz, h1, hne, h3]
      simp [hr]
      try omega
  · refine ⟨fun hc => absurd hc hr, fun _ => ?_, ?_⟩
    · simp [takeQuiz, h1, hne, h3, hr]
    · simp only [takeQuiz, h1, hne, h3]
      simp [hr]
      exact h2

/-- Witness for C8: jumping to index 1 in a live two-question session
moves the cursor there. -/
theorem C8_jump_to_witness :
    demoState.quiz.is_completed = false ∧
    demoState.currentIndex < demoState.questionIds.length ∧
    takeQuiz demoQuestions demoState (ActionReq.jumpTo 1)
      = ({ demoState with currentIndex := 1 }, Outcome.redirectTake) := by
  refine ⟨rfl, by decide, ?_⟩
  have h := (C8_jump_to demoQuestions demoState 1 "C" rfl (by decide) (by decide)).1 (by decide)
  simpa using h

/-! ## Claim C9: answer correctness is compared case-insensitively -/

/-- C9: submitting a non-empty answer stores a `QuizAnswer` row whose
`is_correct` flag is the case-folded comparison
`user_answer.lower() == question.correct_answer.lower()`; the flag is
true exactly when the two labels agree up to case, so a case difference
alone never makes a matching answer incorrect. -/
theorem C9_answer_case_fold (qstore : List (Nat × String)) (st : SessionState)
    (ans c : String)
    (h1 : st.quiz.is_completed = false)
    (h2 : st.currentIndex < st.questionIds.length)
    (h3 : alookup (currentQuestionId st) qstore = some c)
    (h4 : ans ≠ "") :
    alookup (currentQuestionId st) ((takeQuiz qstore st (ActionReq.next ans)).1.answers)
        = some (ans, ans.toLower == c.toLower) ∧
    ((ans.toLower == c.toLower) = true ↔ ans.toLower = c.toLower) := by
  have hne : ¬(st.questionIds = [] ∨ st.questionIds.length ≤ st.currentIndex) := by
    rintro (he | hle)
    · rw [he] at h2
      exact absurd h2 (by simp)
    · omega
  refine ⟨?_, beq_iff_eq⟩
  by_cases hlast : st.questionIds.length ≤ st.currentIndex + 1
  · simp [takeQuiz, h1, hne, h3, h4, hlast, alookup_aupdate]
  · simp [takeQuiz, h1, hne, h3, h4, hlast, alookup_aupdate]

/-- Witness for C9: answering `c` against correct answer `C` is stored
as correct despite the case difference. -/
theorem C9_answer_case_fold_witness :
    ("c" : String) ≠ "" ∧
    alookup (currentQuestionId demoState)
        ((takeQuiz demoQuestions demoState (ActionReq.next "c")).1.answers)
      = some ("c", ("c".toLower == "C".toLower)) ∧
    (("c".toLower == "C".toLower) = true ↔ "c".toLower = "C".toLower) := by
  refine ⟨by decide, ?_, ?_⟩
  · exact (C9_answer_case_fold demoQuestions demoState "c" "C" rfl (by decide)
      (by decide) (by decide)).1
  · exact (C9_answer_case_fold demoQuestions demoState "c" "C" rfl (by decide)
      (by decide) (by decide)).2

/-! ## Claim C10: clear_answer on missing or marked status rows -/

/-- C10: `clear_answer` on a question with no status row does not leave
the store untouched — it creates a row with status `unattempted`; and
`clear_answer` on a question whose status is `marked_for_review` leaves
that status unchanged. -/
theorem C10_clear_status (qstore : List (Nat × String)) (st : SessionState) (c : String)
    (h1 : st.quiz.is_completed = false)
    (h2 : st.currentIndex < st.questionIds.length)
    (h3 : alookup (currentQuestionId st) qstore = some c) :
    (alookup (currentQuestionId st) st.statuses = none →
        alookup (currentQuestionId st) ((takeQuiz qstore st ActionReq.clearAnswer).1.statuses)
          = some QStatus.unattempted) ∧
    (alookup (currentQuestionId st) st.statuses = some QStatus.marked_for_review →
        alookup (currentQuestionId st) ((takeQuiz qstore st ActionReq.clearAnswer).1.statuses)
          = some QStatus.marked_for_review) := by
  have hne : ¬(st.questionIds = [] ∨ st.questionIds.length ≤ st.currentIndex) := by
    rintro (he | hle)
    · rw [he] at h2
      exact absurd h2 (by simp)
    · omega
  constructor
  · intro hs
    simp [takeQuiz, h1, hne, h3, hs, alookup_aupdate, clearStatusUpdate]
  · intro hs
    simp [takeQuiz, h1, hne, h3, hs, alookup_aupdate, clearStatusUpdate]

/-- Witness for C10: clearing with no status row creates an
`unattempted` row; clearing a `marked_for_review` row keeps it. -/
theorem C10_clear_status_witness :
    alookup (currentQuestionId demoState) demoState.statuses = none ∧
    alookup (currentQuestionId demoState)
        ((takeQuiz demoQuestions demoState ActionReq.clearAnswer).1.statuses)
      = some QStatus.unattempted ∧
    alookup (currentQuestionId demoMarkedState) demoMarkedState.statuses
      = some QStatus.marked_for_review ∧
    alookup (currentQuestionId demoMarkedState)
        ((takeQuiz demoQuestions demoMarkedState ActionReq.clearAnswer).1.statuses)
      = some QStatus.marked_for_review := by
  refine ⟨by decide, ?_, by decide, ?_⟩
  · exact (C10_clear_status demoQuestions demoState "C" rfl (by decide) (by decide)).1 (by decide)
  · exact (C10_clear_status demoQuestions demoMarkedState "C" rfl (by decide) (by decide)).2
      (by decide)

/-! ## Claim C1: the scoring formula -/

/-- C1: the score breakdown of any quiz satisfies
`raw_score = correct*1.0 + wrong*(-0.25) + unattempted*0.0`,
`max_possible = total_questions*1.0`, and
`percentage = max(0, raw_score / max_possible * 100)` when
`max_possible > 0` and `0` otherwise; the percentage is never negative.
The percentage stored onto the quiz by the sealing branch of
`quiz_results` is exactly this breakdown percentage. -/
theorem C1_scoring_formula (answers : List (Nat × String × Bool)) (tq : Nat)
    (st : SessionState) (now : Nat) :
    (get_score_breakdown answers tq).raw_score
        = ((get_score_breakdown answers tq).correct_count : Rat) * 1
          + ((get_score_breakdown answers tq).wrong_count : Rat) * (-(1/4))
          + ((get_score_breakdown answers tq).unattempted_count : Rat) * 0 ∧
    (get_score_breakdown answers tq).max_possible = (tq : Rat) * 1 ∧
    (get_score_breakdown answers tq).percentage
        = (if 0 < (get_score_breakdown answers tq).max_possible
           then max 0 ((get_score_breakdown answers tq).raw_score
                / (get_score_breakdown answers tq).max_possible * 100)
           else 0) ∧
    0 ≤ (get_score_breakdown answers tq).percentage ∧
    (st.quiz.is_completed = false →
        (quiz_results st now).1.quiz.score
          = some (get_score_breakdown st.answers st.quiz.total_questions).percentage) := by
  refine ⟨rfl, rfl, rfl, ?_, ?_⟩
  · unfold get_score_breakdown
    dsimp only
    split
    · exact le_max_left 0 _
    · exact le_refl 0
  · intro h
    simp [quiz_results, h, sealQuiz, get_score_breakdown]

/-- Witness for C1: sealing a fresh (unanswered) two-question quiz
stores the breakdown percentage as its score. -/
theorem C1_scoring_formula_witness :
    demoState.quiz.is_completed = false ∧
    (quiz_results demoState 7).1.quiz.score
      = some (get_score_breakdown demoState.answers demoState.quiz.total_questions).percentage :=
  ⟨rfl, (C1_scoring_formula demoState.answers demoState.quiz.total_questions demoState 7).2.2.2.2 rfl⟩

/-! ## Claim C5: the results operation is idempotent after sealing -/

/-- C5: viewing the results of an already-sealed quiz returns exactly
what the first (sealing) view returned: the stored score, correct count
and end time are untouched, and the displayed breakdown — correct,
wrong, attempted, unattempted, raw score, max possible — is identical. -/
theorem C5_results_idempotent (st : SessionState) (t1 t2 : Nat) :
    quiz_results ((quiz_results st t1).1) t2 = quiz_results st t1 := by
  cases hc : st.quiz.is_completed
  · simp [quiz_results, hc, sealQuiz]
  · simp [quiz_results, hc]

/-! ## Claim C7: negative unattempted counts -/

/-- C7, as stated, is false. The claim asserts `unattempted_count` is
never negative because an answer count exceeding `total_questions` would
be surfaced as an internal error. The code performs a plain integer
subtraction with no check: with two stored answers and
`total_questions = 1` the breakdown is produced with
`unattempted_count = -1` (and a 200% score), and no error is raised. -/
theorem C7_counterexample :
    ¬ (∀ (answers : List (Nat × String × Bool)) (tq : Nat),
        0 ≤ (get_score_breakdown answers tq).unattempted_count) := by
  intro h
  exact absurd (h [(1, "A", true), (2, "B", true)] 1) (by decide)

/-- C7 amended: `unattempted_count` is the plain integer difference
`total_questions - attempted_count`; whenever more answers are stored
than `total_questions`, it is negative and the breakdown (raw score and
percentage included) is still produced, with no internal error. -/
theorem C7_amended (answers : List (Nat × String × Bool)) (tq : Nat) :
    (get_score_breakdown answers tq).unattempted_count
        = (tq : Int) - (answers.length : Int) ∧
    ((tq : Int) < (answers.length : Int) →
        (get_score_breakdown answers tq).unattempted_count < 0) := by
  refine ⟨rfl, ?_⟩
  intro h
  simp only [get_score_breakdown]
  omega

/-- Witness for C7 amended: two answers against one total question give
an unattempted count of -1. -/
theorem C7_amended_witness :
    ((1 : Nat) : Int) < ((([(1, "A", true), (2, "B", true)] :
        List (Nat × String × Bool)).length : Nat) : Int) ∧
    (get_score_breakdown [(1, "A", true), (2, "B", true)] 1).unattempted_count < 0 :=
  ⟨by decide, (C7_amended [(1, "A", true), (2, "B", true)] 1).2 (by decide)⟩

/-! ## Claim C3: insufficient questions fail without creating a quiz -/

/-- C3: whenever the eligible question set for the requested scope and
difficulty has fewer than the requested number of questions, quiz
creation fails, the failure carries exactly the number of eligible
questions available (`Only N questions available`), and the quiz table
is returned unchanged — no `Quiz` row is created. -/
theorem C3_insufficient (allQ : List ContentQ) (quizzes : List QuizRec)
    (src : QuizSource) (difficulty : String) (num dur : Nat) (rnd : List Nat)
    (h : (get_questions_for_source allQ src difficulty).length < num) :
    start_quiz allQ quizzes src difficulty num dur rnd
      = (quizzes, Except.error (get_questions_for_source allQ src difficulty).length) := by
  simp [start_quiz, h]

/-- Witness for C3: only one easy question exists in chapter 1, so a
two-question easy quiz fails with available count 1 and creates
nothing. -/
theorem C3_insufficient_witness :
    (get_questions_for_source demoContent (QuizSource.chapter 1) "easy").length < 2 ∧
    start_quiz demoContent [] (QuizSource.chapter 1) "easy" 2 30 [0]
      = ([], Except.error 1) := by
  refine ⟨by decide, ?_⟩
  have h := C3_insufficient demoContent [] (QuizSource.chapter 1) "easy" 2 30 [0] (by decide)
  rw [h]
  rfl

/-! ## Claim C4: sampling draws distinct eligible questions -/

/-- C4: when the eligible set has at least `count` questions, quiz
creation succeeds with a sequence of exactly `count` pairwise-distinct
question ids, each belonging to the eligible set, sampled without
replacement; and the eligible set is exactly the scope's questions
restricted by the difficulty filter, with filter `all` imposing no
restriction. -/
theorem C4_sampling (allQ : List ContentQ) (quizzes : List QuizRec)
    (src : QuizSource) (difficulty : String) (num dur : Nat) (rnd : List Nat)
    (ids : List Nat)
    (hnodup : (allQ.map ContentQ.id).Nodup)
    (h : num ≤ (get_questions_for_source allQ src difficulty).length)
    (hok : (start_quiz allQ quizzes src difficulty num dur rnd).2 = Except.ok ids) :
    ids.length = num ∧ ids.Nodup ∧
    (∀ i ∈ ids, ∃ q ∈ get_questions_for_source allQ src difficulty, q.id = i) ∧
    (∀ q : ContentQ, q ∈ get_questions_for_source allQ src difficulty ↔
        (q ∈ allQ ∧ sourceMatch src q = true ∧
         (difficulty = "all" ∨ q.difficulty = difficulty))) := by
  have hnot : ¬ ((get_questions_for_source allQ src difficulty).length < num) := not_lt.mpr h
  have hids : ids
      = (drawSample rnd (get_questions_for_source allQ src difficulty) num).map ContentQ.id := by
    simp [start_quiz, hnot] at hok
    exact hok.symm
  subst hids
  have helsub : (get_questions_for_source allQ src difficulty).Sublist allQ := by
    unfold get_questions_for_source
    split
    · exact (List.filter_sublist _).trans (List.filter_sublist _)
    · exact List.filter_sublist _
  have hsub := drawSample_subperm num rnd (get_questions_for_source allQ src difficulty)
  refine ⟨?_, ?_, ?_, ?_⟩
  · rw [List.length_map]
    exact drawSample_length num rnd _ h
  · exact subperm_nodup (subperm_map ContentQ.id (hsub.trans helsub.subperm)) hnodup
  · intro i hi
    rw [List.mem_map] at hi
    obtain ⟨q, hq, hqi⟩ := hi
    exact ⟨q, hsub.subset hq, hqi⟩
  · intro q
    unfold get_questions_for_source
    by_cases hd : difficulty = "all"
    · simp [hd, List.mem_filter]
    · simp [hd, List.mem_filter, and_assoc]
      tauto

/-- Witness for C4: drawing 2 from the 2 questions of chapter 1 with the
all-difficulties filter yields the distinct eligible ids 1 and 2. -/
theorem C4_sampling_witness :
    (demoContent.map ContentQ.id).Nodup ∧
    2 ≤ (get_questions_for_source demoContent (QuizSource.chapter 1) "all").length ∧
    (start_quiz demoContent [] (QuizSource.chapter 1) "all" 2 30 [0, 0]).2
      = Except.ok [1, 2] ∧
    ([1, 2] : List Nat).length = 2 ∧ ([1, 2] : List Nat).Nodup ∧
    (∀ i ∈ ([1, 2] : List Nat),
        ∃ q ∈ get_questions_for_source demoContent (QuizSource.chapter 1) "all", q.id = i) ∧
    (∀ q : ContentQ, q ∈ get_questions_for_source demoContent (QuizSource.chapter 1) "all" ↔
        (q ∈ demoContent ∧ sourceMatch (QuizSource.chapter 1) q = true ∧
         (("all" : String) = "all" ∨ q.difficulty = "all"))) := by
  have h := C4_sampling demoContent [] (QuizSource.chapter 1) "all" 2 30 [0, 0] [1, 2]
      (by decide) (by decide) (by rfl)
  exact ⟨by decide, by decide, by rfl, h.1, h.2.1, h.2.2.1, h.2.2.2⟩

end QuizApp
